import Mathlib

/-!
Shallow embedding of the retail-ops MCP database tool server
(`src/src/mcp_server_db.py`).

The Python program is a line-delimited JSON-RPC server exposing six tools
over a SQLite store and a Slack HTTP API.  The external collaborators
(the sqlite3 library, the Slack HTTP endpoints, the wall clock) are
modelled by small explicit environments; every function of the server
itself (`get_connection`, `list_tables`, `describe_table`, `read_query`,
`write_query`, `read_thread`, `send_slack_message`, `handle_request`,
`main`) is translated directly from the source.
-/

namespace RetailOps

/-- A column descriptor, as reported by `PRAGMA table_info`
(name, declared type, not-null flag, primary-key flag). -/
structure Column where
  name : String
  declType : String
  notnull : Bool
  pk : Bool
deriving Repr, DecidableEq

/-- A table of the SQLite store: column descriptors, whether the first
column is a unique primary key (the constraint the model enforces), and
the current rows (each row a list of cell values rendered as strings). -/
structure Table where
  cols : List Column
  pkUnique : Bool
  rows : List (List String)
deriving Repr, DecidableEq

/-- The persistent database: named tables in creation order
(`sqlite_master` iteration order). -/
abbrev Store := List (String × Table)

/-- Look a table up by name (models name resolution in the SQLite engine). -/
def lookupTable : Store → String → Option Table
  | [], _ => none
  | (n, t) :: rest, m => if n = m then some t else lookupTable rest m

/-- Replace the table bound to a name (models an in-place table update). -/
def updateTable : Store → String → Table → Store
  | [], _, _ => []
  | (n, t) :: rest, m, tb => if n = m then (m, tb) :: rest else (n, t) :: updateTable rest m tb

/-- An error raised by the sqlite3 layer; `msg` is the Python `str(e)`. -/
structure SqlError where
  msg : String
deriving Repr, DecidableEq

/-- Statements the server passes to `cursor.execute`, with the Python
sqlite3 `cursor.rowcount` semantics: row-changing statements report the
number of affected rows, while SELECT and DDL report `-1` (the DB-API
"rowcount undetermined" value).  A duplicate first cell in a `pkUnique`
table is a UNIQUE-constraint violation. -/
inductive Stmt
  | selectFrom (table : String)
  | insertRow (table : String) (row : List String)
  | deleteAll (table : String)
  | createTable (table : String) (cols : List Column)
deriving Repr, DecidableEq

/-- Run one statement on the pending (uncommitted) state of a connection,
returning the new pending state and `cursor.rowcount`.  Models the sqlite3
engine: a failing statement changes nothing (statement-level abort). -/
def execStmt : Stmt → Store → Except SqlError (Store × Int)
  | .selectFrom t, s =>
      match lookupTable s t with
      | none => .error ⟨"no such table: " ++ t⟩
      | some _ => .ok (s, -1)
  | .insertRow t row, s =>
      match lookupTable s t with
      | none => .error ⟨"no such table: " ++ t⟩
      | some tb =>
          if row.length ≠ tb.cols.length then
            .error ⟨"table " ++ t ++ " has " ++ toString tb.cols.length ++ " columns"⟩
          else if tb.pkUnique && tb.rows.any (fun r => r.head? == row.head?) then
            .error ⟨"UNIQUE constraint failed: " ++ t⟩
          else
            .ok (updateTable s t { tb with rows := tb.rows ++ [row] }, 1)
  | .deleteAll t, s =>
      match lookupTable s t with
      | none => .error ⟨"no such table: " ++ t⟩
      | some tb => .ok (updateTable s t { tb with rows := [] }, (tb.rows.length : Int))
  | .createTable t cols, s =>
      if (lookupTable s t).isSome then
        .error ⟨"table " ++ t ++ " already exists"⟩
      else
        .ok (s ++ [(t, ⟨cols, false, []⟩)], -1)

/-- Row count of a named table, used to state the rollback invariant. -/
def tableRowCount (s : Store) (t : String) : Option Nat :=
  (lookupTable s t).map (fun tb => tb.rows.length)

/-! ### get_connection -/

/-- Observable trace of one `get_connection` call: its outcome (on failure
the carried last underlying error; `none` only if no attempt ran), the
number of connection attempts performed, and the sleep durations in order. -/
structure RetryTrace where
  result : Except (Option SqlError) Unit
  attempts : Nat
  sleeps : List ℚ
deriving Repr

/-- The retry loop of `get_connection`: `attempt` is the index of the next
attempt, `remaining` how many loop iterations are left, `lastError` the
last recorded failure.  Sleeping `delay * (attempt + 1)` happens only when
another iteration follows (`attempt < retries - 1` in the source). -/
def getConnGo (probe : Nat → Except SqlError Unit) (delay : ℚ) :
    Nat → Nat → Option SqlError → RetryTrace
  | attempt, 0, lastError => { result := .error lastError, attempts := attempt, sleeps := [] }
  | attempt, remaining + 1, _ =>
      match probe attempt with
      | .ok _ => { result := .ok (), attempts := attempt + 1, sleeps := [] }
      | .error e =>
          let rest := getConnGo probe delay (attempt + 1) remaining (some e)
          { rest with
            sleeps := (if remaining > 0 then [delay * ((attempt : ℚ) + 1)] else []) ++ rest.sleeps }

/-- `get_connection(retries, delay)` from the source; `probe` gives the
outcome of each `sqlite3.connect` + `SELECT 1` liveness attempt.  The
source defaults are `retries = 3`, `delay = 0.5`. -/
def get_connection (probe : Nat → Except SqlError Unit) (retries : Nat) (delay : ℚ) : RetryTrace :=
  getConnGo probe delay 0 retries none

/-- Default attempt ceiling of `get_connection`. -/
def defaultRetries : Nat := 3

/-- Default base delay of `get_connection`. -/
def defaultDelay : ℚ := 1 / 2

/-! ### DB tool handlers -/

/-- Insert into an ascending-sorted list of strings. -/
def insertAsc (x : String) : List String → List String
  | [] => [x]
  | y :: ys => if x ≤ y then x :: y :: ys else y :: insertAsc x ys

/-- Lexical ascending sort, modelling `ORDER BY name`. -/
def sortAsc : List String → List String
  | [] => []
  | x :: xs => insertAsc x (sortAsc xs)

/-- `list_tables`: names from `sqlite_master` in ascending lexical order. -/
def list_tables (s : Store) : List String :=
  sortAsc (s.map Prod.fst)

/-- `describe_table`: the column descriptors of the table; like
`PRAGMA table_info`, a missing table yields an empty list, not an error. -/
def describe_table (s : Store) (table_name : String) : List Column :=
  match lookupTable s table_name with
  | none => []
  | some tb => tb.cols

/-- Result shape of `read_query`: projection columns and all rows. -/
structure QueryResult where
  columns : List String
  rows : List (List String)
deriving Repr, DecidableEq

/-- `read_query`: execute a statement and fetch columns and rows.  A
non-SELECT statement has `cursor.description = None`, so columns and rows
are empty; its uncommitted effect is discarded when the per-call
connection is closed. -/
def read_query (q : Stmt) (s : Store) : Except SqlError QueryResult :=
  match q with
  | .selectFrom t =>
      match lookupTable s t with
      | none => .error ⟨"no such table: " ++ t⟩
      | some tb => .ok { columns := tb.cols.map Column.name, rows := tb.rows }
  | q2 =>
      match execStmt q2 s with
      | .error e => .error e
      | .ok _ => .ok { columns := [], rows := [] }

/-- Outcome of one `write_query` call: the returned affected-row count or
the propagated error, together with the persistent store after the call
(the connection's committed state once it is closed). -/
structure WriteOutcome where
  result : Except SqlError Int
  store : Store
deriving Repr

/-- `write_query`: execute on a fresh connection, commit, and return
`cursor.rowcount`; on any failure roll back (discarding the pending
state) and propagate the error.  `commitOk` models whether the commit
itself succeeds (a failing commit raises, e.g. disk errors). -/
def write_query (commitOk : Bool) (q : Stmt) (s : Store) : WriteOutcome :=
  match execStmt q s with
  | .error e => { result := .error e, store := s }
  | .ok (s2, affected) =>
      if commitOk then { result := .ok affected, store := s2 }
      else { result := .error ⟨"disk I/O error"⟩, store := s }

/-- Row-changing statements (INSERT/UPDATE/DELETE), for which sqlite3
reports a true affected-row count rather than `-1`. -/
def isRowChange : Stmt → Bool
  | .insertRow _ _ => true
  | .deleteAll _ => true
  | _ => false

/-! ### Slack tools -/

/-- A raw message of a Slack thread: its `text` and the optional `bot_id`
flag the platform sets on bot-authored messages. -/
structure SlackMsg where
  text : String
  bot_id : Option String
deriving Repr, DecidableEq

/-- A message as returned by `read_thread`: classified role and text. -/
structure OutMsg where
  role : String
  text : String
deriving Repr, DecidableEq

/-- The status-marker text heads the server filters out of threads. -/
def statusMarkers : List String := ["🔍", "🔧", "🧠", "🔄", "✅ Complete"]

/-- Python `t.startswith(p)` for one candidate: `p` is a character-wise
head of `t`. -/
def strStartsWith (t p : String) : Bool :=
  p.toList.isPrefixOf t.toList

/-- `text.startswith(("🔍", "🔧", "🧠", "🔄", "✅ Complete"))`. -/
def isStatusText (t : String) : Bool :=
  statusMarkers.any (fun p => strStartsWith t p)

/-- The message-collecting loop of `read_thread`: skip status messages,
classify the rest as `assistant` when bot-authored, else `user`. -/
def collectMsgs : List SlackMsg → List OutMsg
  | [] => []
  | m :: rest =>
      if isStatusText m.text then collectMsgs rest
      else { role := if m.bot_id.isSome then "assistant" else "user", text := m.text }
          :: collectMsgs rest

/-- State of the upstream `conversations.replies` endpoint for one thread:
network down (URLError, carrying its text), or an API reply with its `ok`
flag, optional `error` string, and the thread's messages in chronological
order (the fetch returns the first `limit` of them). -/
inductive SlackNet
  | down (err : String)
  | api (ok : Bool) (error : Option String) (thread : List SlackMsg)

/-- Result of `read_thread`: the success/failure dictionaries the Python
function returns. -/
inductive ReadResult
  | success (messages : List OutMsg)
  | failure (error : String)
deriving Repr, DecidableEq

/-- `read_thread(channel, thread_ts, limit)`: fail structurally when the
`SLACK_BOT_TOKEN` credential is absent; otherwise consult the upstream
endpoint (which bounds the fetch to `limit` messages *before* any
filtering) and filter/classify the fetched messages. -/
def read_thread (token : Option String) (channel thread_ts : String) (limit : Nat)
    (world : String → String → SlackNet) : ReadResult :=
  match token with
  | none => .failure "SLACK_BOT_TOKEN not configured"
  | some _ =>
      match world channel thread_ts with
      | .down e => .failure e
      | .api ok err thread =>
          if ok then .success (collectMsgs (thread.take limit))
          else .failure (err.getD "Unknown error")

/-- State of the upstream `chat.postMessage` endpoint: network down, or an
API reply with its `ok` flag and optional `error` string. -/
inductive SendNet
  | down (err : String)
  | api (ok : Bool) (error : Option String)
deriving Repr, DecidableEq

/-- Result of `send_slack_message`. -/
inductive SendResult
  | success (channel : String)
  | failure (error : String)
deriving Repr, DecidableEq

/-- `send_slack_message(channel, message)`: structured failure when the
credential is absent, else post and report the platform's verdict. -/
def send_slack_message (token : Option String) (channel message : String)
    (net : SendNet) : SendResult :=
  match token with
  | none => .failure "SLACK_BOT_TOKEN not configured"
  | some _ =>
      match net with
      | .down e => .failure e
      | .api true _ => .success channel
      | .api false err => .failure (err.getD "Unknown error")

/-! ### JSON-RPC protocol engine -/

/-- A JSON-RPC request id (string or number). -/
inductive JId
  | num (n : Int)
  | str (s : String)
deriving Repr, DecidableEq

/-- The `params.arguments` dictionary as the six tool branches read it:
each key either present with a value of the advertised type or absent
(`tool_args[key]` raises `KeyError` on an absent key).  SQL text is
represented by its parsed statement. -/
structure ToolArgs where
  table_name : Option String
  query : Option Stmt
  channel : Option String
  thread_ts : Option String
  limit : Option Nat
  message : Option String
deriving Repr, DecidableEq

/-- An empty `arguments` dictionary. -/
def noArgs : ToolArgs := ⟨none, none, none, none, none, none⟩

/-- The `params` object; `request.get("params", {})` defaults it. -/
structure ReqParams where
  name : Option String
  arguments : ToolArgs
deriving Repr, DecidableEq

/-- A well-formed (JSON-object) request as `handle_request` reads it:
`method`, `params`, `id`, each via `.get`, so an absent field is `none`. -/
structure Request where
  method : Option String
  params : ReqParams
  id : Option JId
deriving Repr, DecidableEq

/-- A tool descriptor of the `tools/list` catalogue (advertised name and
required argument keys; description text elided). -/
structure ToolDesc where
  name : String
  required : List String
deriving Repr, DecidableEq

/-- The fixed tool catalogue returned by `tools/list`. -/
def toolCatalogue : List ToolDesc :=
  [ { name := "list_tables", required := [] },
    { name := "describe_table", required := ["table_name"] },
    { name := "read_query", required := ["query"] },
    { name := "write_query", required := ["query"] },
    { name := "read_thread", required := ["channel", "thread_ts"] },
    { name := "send_slack_message", required := ["channel", "message"] } ]

/-- Body of a response: the `initialize` payload, the tool catalogue, a
`tools/call` text result, or an error envelope `{code, message}`. -/
inductive RespBody
  | initResult
  | toolsList (tools : List ToolDesc)
  | callResult (content : String)
  | rpcError (code : Int) (message : String)
deriving Repr, DecidableEq

/-- A response line: its `id` field (`none` serializes as null) and body. -/
structure Response where
  id : Option JId
  body : RespBody
deriving Repr, DecidableEq

/-- The process environment a request is handled in: the database, whether
every connection attempt fails, whether commits succeed, the Slack
credential, and the two upstream Slack endpoints. -/
structure Env where
  db : Store
  connFail : Bool
  commitOk : Bool
  slackToken : Option String
  slackWorld : String → String → SlackNet
  sendNet : SendNet

/-- Python `str` of an optional string (`str(None) = "None"`). -/
def pyStrOpt : Option String → String
  | none => "None"
  | some s => s

/-- Python `str(KeyError(k))`, which quotes the missing key. -/
def keyErrorMsg (k : String) : String := "\x27" ++ k ++ "\x27"

/-- Message of the error `get_connection` raises after exhausting its
attempts (the cause text is elided in the environment model). -/
def connErrText : String := "Failed to connect after 3 attempts"

/-- Content text of the `list_tables` branch. -/
def listTablesContent (names : List String) : String :=
  "Tables in database:\n" ++ String.intercalate "\n" (names.map (fun t => "- " ++ t))

/-- Content text of the `describe_table` branch. -/
def describeContent (t : String) (cols : List Column) : String :=
  "Schema for " ++ t ++ ":\n"
    ++ String.intercalate "\n" (cols.map (fun c => "- " ++ c.name ++ " (" ++ c.declType ++ ")"))

/-- Render one result row (Python prints the row tuple). -/
def rowText (r : List String) : String := "(" ++ String.intercalate ", " r ++ ")"

/-- Content text of the `read_query` branch: all columns, first 100 rows,
and a trailing count of omitted rows. -/
def readQueryContent (res : QueryResult) : String :=
  if res.rows.isEmpty then "Query returned no results."
  else
    let base := "Columns: " ++ String.intercalate ", " res.columns ++ "\n\n"
      ++ "Results (" ++ toString res.rows.length ++ " rows):\n"
      ++ String.join ((res.rows.take 100).map (fun r => rowText r ++ "\n"))
    if res.rows.length > 100 then
      base ++ "\n... and " ++ toString (res.rows.length - 100) ++ " more rows"
    else base

/-- Content text of the `write_query` branch. -/
def writeContent (n : Int) : String := "Query executed. Affected rows: " ++ toString n

/-- Content text of the `read_thread` branch. -/
def threadContent : ReadResult → String
  | .success msgs =>
      "Thread conversation:\n"
        ++ String.join (msgs.map (fun m => "[" ++ m.role.toUpper ++ "]: " ++ m.text ++ "\n"))
  | .failure e => "Failed to read thread: " ++ e

/-- Content text of the `send_slack_message` branch. -/
def sendContent : SendResult → String
  | .success ch => "Message sent to " ++ ch
  | .failure e => "Failed to send message: " ++ e

/-- Outcome of the `tools/call` dispatch chain: an unknown tool name (the
final `else`), a successful content string with the database state after
the call, or a raised exception message (caught by `handle_request`). -/
inductive ToolOutcome
  | unknown (name : String)
  | ok (content : String) (db : Store)
  | exn (msg : String)
deriving Repr

/-- The `tools/call` `if tool_name == ...` chain of `handle_request`,
branch by branch from the source.  Required arguments are read with
`tool_args[key]` (raising `KeyError` when absent) in source order, before
the handler body runs. -/
def dispatchTool (env : Env) (name : Option String) (args : ToolArgs) : ToolOutcome :=
  if name = some "list_tables" then
    if env.connFail then .exn connErrText
    else .ok (listTablesContent (list_tables env.db)) env.db
  else if name = some "describe_table" then
    match args.table_name with
    | none => .exn (keyErrorMsg "table_name")
    | some t =>
        if env.connFail then .exn connErrText
        else .ok (describeContent t (describe_table env.db t)) env.db
  else if name = some "read_query" then
    match args.query with
    | none => .exn (keyErrorMsg "query")
    | some q =>
        if env.connFail then .exn connErrText
        else
          match read_query q env.db with
          | .error e => .exn e.msg
          | .ok res => .ok (readQueryContent res) env.db
  else if name = some "write_query" then
    match args.query with
    | none => .exn (keyErrorMsg "query")
    | some q =>
        if env.connFail then .exn connErrText
        else
          match write_query env.commitOk q env.db with
          | ⟨.error e, _⟩ => .exn e.msg
          | ⟨.ok n, db2⟩ => .ok (writeContent n) db2
  else if name = some "read_thread" then
    match args.channel with
    | none => .exn (keyErrorMsg "channel")
    | some ch =>
        match args.thread_ts with
        | none => .exn (keyErrorMsg "thread_ts")
        | some ts =>
            .ok (threadContent
                  (read_thread env.slackToken ch ts (args.limit.getD 10) env.slackWorld))
                env.db
  else if name = some "send_slack_message" then
    match args.channel with
    | none => .exn (keyErrorMsg "channel")
    | some ch =>
        match args.message with
        | none => .exn (keyErrorMsg "message")
        | some m =>
            .ok (sendContent (send_slack_message env.slackToken ch m env.sendNet)) env.db
  else .unknown (pyStrOpt name)

/-- `handle_request`: the method dispatch of the protocol engine, with
its surrounding try/except mapping any raised exception to a `-32000`
envelope.  Returns the optional response (`none` exactly for the
notification branch) and the database state after the call. -/
def handle_request (env : Env) (req : Request) : Option Response × Store :=
  if req.method = some "initialize" then
    (some { id := req.id, body := .initResult }, env.db)
  else if req.method = some "notifications/initialized" then
    (none, env.db)
  else if req.method = some "tools/list" then
    (some { id := req.id, body := .toolsList toolCatalogue }, env.db)
  else if req.method = some "tools/call" then
    match dispatchTool env req.params.name req.params.arguments with
    | .unknown n =>
        (some { id := req.id, body := .rpcError (-32601) ("Unknown tool: " ++ n) }, env.db)
    | .ok content db2 => (some { id := req.id, body := .callResult content }, db2)
    | .exn msg => (some { id := req.id, body := .rpcError (-32000) msg }, env.db)
  else
    (some { id := req.id,
            body := .rpcError (-32601) ("Method not found: " ++ pyStrOpt req.method) },
     env.db)

/-! ### Transport loop -/

/-- One line read from stdin, after `strip()`: blank, a JSON parse
failure, a JSON value that is not an object (`.get` raises outside
`handle_request`, caught by the loop's generic handler), or a
well-formed request object. -/
inductive Line
  | blank
  | malformed (err : String)
  | nonObject (err : String)
  | valid (req : Request)

/-- The parse-error envelope the loop emits with a null id. -/
def parseErrorResp (e : String) : Response :=
  { id := none, body := .rpcError (-32700) ("Parse error: " ++ e) }

/-- The loop-level internal-error envelope with a null id. -/
def internalErrorResp (e : String) : Response :=
  { id := none, body := .rpcError (-32000) ("Internal error: " ++ e) }

/-- The `main` read loop: one line at a time until end of stream, sending
each produced response immediately; the database state threads through. -/
def mainLoop (env : Env) : List Line → List Response
  | [] => []
  | .blank :: rest => mainLoop env rest
  | .malformed e :: rest => parseErrorResp e :: mainLoop env rest
  | .nonObject e :: rest => internalErrorResp e :: mainLoop env rest
  | .valid r :: rest =>
      match handle_request env r with
      | (some resp, db2) => resp :: mainLoop { env with db := db2 } rest
      | (none, db2) => mainLoop { env with db := db2 } rest

/-- A fixed sample environment used by concrete counterexamples and
witnesses: empty store, healthy connections, no Slack credential. -/
def env0 : Env :=
  { db := [], connFail := false, commitOk := true, slackToken := none,
    slackWorld := fun _ _ => SlackNet.down "", sendNet := SendNet.down "" }

/-! ### Helper lemmas -/

/-- Every request whose method is not the notification method gets exactly
one response, and that response echoes the request's id. -/
theorem handleRequest_some (env : Env) (r : Request)
    (h : r.method ≠ some "notifications/initialized") :
    ∃ resp db2, handle_request env r = (some resp, db2) ∧ resp.id = r.id := by
  unfold handle_request
  split_ifs with h1 h2 h3
  · exact ⟨_, _, rfl, rfl⟩
  · exact ⟨_, _, rfl, rfl⟩
  · cases hd : dispatchTool env r.params.name r.params.arguments <;>
      exact ⟨_, _, rfl, rfl⟩
  · exact ⟨_, _, rfl, rfl⟩

/-- The notification method is answered with no response. -/
theorem handleRequest_notif (env : Env) (r : Request)
    (h : r.method = some "notifications/initialized") :
    (handle_request env r).1 = none := by
  unfold handle_request
  rw [h]
  simp

/-- Unfolding equation of the loop on a well-formed request line. -/
theorem mainLoop_valid (env : Env) (r : Request) (rest : List Line) :
    mainLoop env (Line.valid r :: rest)
      = match handle_request env r with
        | (some resp, db2) => resp :: mainLoop { env with db := db2 } rest
        | (none, db2) => mainLoop { env with db := db2 } rest := rfl

/-- A tool name outside the catalogue reaches the final `else` branch. -/
theorem dispatch_unknown (env : Env) (args : ToolArgs) (n : String)
    (h : n ∉ toolCatalogue.map ToolDesc.name) :
    dispatchTool env (some n) args = .unknown n := by
  simp only [toolCatalogue, List.map_cons, List.map_nil, List.mem_cons,
    List.not_mem_nil, or_false, not_or] at h
  obtain ⟨h1, h2, h3, h4, h5, h6⟩ := h
  unfold dispatchTool
  simp [h1, h2, h3, h4, h5, h6, pyStrOpt]

/-- Whether a dispatch outcome is the unknown-tool branch. -/
def ToolOutcome.isUnknown : ToolOutcome → Bool
  | .unknown _ => true
  | _ => false

/-- A tool name inside the catalogue never reaches the unknown branch. -/
theorem dispatch_known (env : Env) (args : ToolArgs) (n : String)
    (h : n ∈ toolCatalogue.map ToolDesc.name) :
    (dispatchTool env (some n) args).isUnknown = false := by
  simp only [toolCatalogue, List.map_cons, List.map_nil, List.mem_cons,
    List.not_mem_nil, or_false] at h
  rcases h with rfl | rfl | rfl | rfl | rfl | rfl <;>
    · unfold dispatchTool
      repeat' split
      all_goals simp_all [ToolOutcome.isUnknown]

/-! ### C1 -/

/-- C1, counterexample: the claim says every well-formed request with a
present `id` produces exactly one response; but a request with method
`notifications/initialized` and `id = 1` is answered with no response at
all — `handle_request` returns `None` for that method regardless of the
id, and the transport loop therefore emits zero lines for it. -/
theorem C1_counterexample :
    ({ method := some "notifications/initialized", params := ⟨none, noArgs⟩,
       id := some (JId.num 1) } : Request).id = some (JId.num 1)
  ∧ (handle_request env0
      { method := some "notifications/initialized", params := ⟨none, noArgs⟩,
        id := some (JId.num 1) }).1 = none
  ∧ mainLoop env0
      [Line.valid { method := some "notifications/initialized", params := ⟨none, noArgs⟩,
                    id := some (JId.num 1) }] = [] :=
  ⟨rfl, rfl, rfl⟩

/-- C1 (amended): every well-formed request with a present `id` whose
method is not `notifications/initialized` produces exactly one response
whose `id` equals the request's id, and a sequence of such requests is
answered one response per request in the same relative order. -/
theorem C1_id_echo_in_order (env : Env) (rs : List Request)
    (h : ∀ r ∈ rs, r.id.isSome ∧ r.method ≠ some "notifications/initialized") :
    (mainLoop env (rs.map Line.valid)).map Response.id = rs.map Request.id := by
  induction rs generalizing env with
  | nil => rfl
  | cons r rest ih =>
      obtain ⟨resp, db2, hpair, hid⟩ :=
        handleRequest_some env r (h r (List.mem_cons_self r rest)).2
      rw [List.map_cons, mainLoop_valid, hpair, List.map_cons, List.map_cons, hid]
      exact congrArg (r.id :: ·) (ih _ (fun x hx => h x (List.mem_cons_of_mem r hx)))

/-- C1, witness. -/
theorem C1_witness :
    (mainLoop env0
        (([{ method := some "tools/list", params := ⟨none, noArgs⟩, id := some (JId.num 1) },
           { method := some "initialize", params := ⟨none, noArgs⟩, id := some (JId.str "b") }]
          : List Request).map Line.valid)).map Response.id
      = [some (JId.num 1), some (JId.str "b")] :=
  (C1_id_echo_in_order env0 _ (by decide)).trans rfl

/-! ### C2 -/

/-- C2, counterexample: the claim says a well-formed request with absent
`id` gets zero response lines regardless of method; but an id-less
`tools/list` request is answered with one response (whose id field is
null) — only the method `notifications/initialized` is treated as a
notification. -/
theorem C2_counterexample :
    ({ method := some "tools/list", params := ⟨none, noArgs⟩, id := none } : Request).id = none
  ∧ (handle_request env0 { method := some "tools/list", params := ⟨none, noArgs⟩, id := none }).1
      = some { id := none, body := .toolsList toolCatalogue }
  ∧ mainLoop env0 [Line.valid { method := some "tools/list", params := ⟨none, noArgs⟩, id := none }]
      = [{ id := none, body := .toolsList toolCatalogue }] :=
  ⟨rfl, rfl, rfl⟩

/-- C2 (amended): the server keys notification handling on the method,
not on the id: a request with method `notifications/initialized` is never
answered, while any other well-formed request with absent `id` still
receives exactly one response, whose id field is null. -/
theorem C2_notification_by_method (env : Env) (r : Request) :
    (r.method = some "notifications/initialized" → (handle_request env r).1 = none)
  ∧ (r.id = none → r.method ≠ some "notifications/initialized" →
      ∃ resp, (handle_request env r).1 = some resp ∧ resp.id = none) := by
  constructor
  · exact handleRequest_notif env r
  · intro hid hm
    obtain ⟨resp, db2, hpair, hrid⟩ := handleRequest_some env r hm
    exact ⟨resp, by rw [hpair], by rw [hrid, hid]⟩

/-- C2, witness. -/
theorem C2_witness :
    (handle_request env0
      { method := some "notifications/initialized", params := ⟨none, noArgs⟩, id := none }).1 = none
  ∧ ∃ resp,
      (handle_request env0
        { method := some "tools/list", params := ⟨none, noArgs⟩, id := none }).1 = some resp
      ∧ resp.id = none :=
  ⟨(C2_notification_by_method env0
      { method := some "notifications/initialized", params := ⟨none, noArgs⟩, id := none }).1 rfl,
   (C2_notification_by_method env0
      { method := some "tools/list", params := ⟨none, noArgs⟩, id := none }).2 rfl (by decide)⟩

/-! ### C3 -/

/-- C3, counterexample: the claim names the sixth tool `send_message`,
but the catalogue advertised by `tools/list` names it
`send_slack_message`, `send_message` is not in the catalogue at all, and
`tools/call` on `send_message` falls through to the unknown-tool error. -/
theorem C3_counterexample :
    (handle_request env0
        { method := some "tools/list", params := ⟨none, noArgs⟩, id := some (JId.num 1) }).1
      = some { id := some (JId.num 1), body := .toolsList toolCatalogue }
  ∧ toolCatalogue.map ToolDesc.name
      = ["list_tables", "describe_table", "read_query", "write_query", "read_thread",
         "send_slack_message"]
  ∧ "send_message" ∉ toolCatalogue.map ToolDesc.name
  ∧ (handle_request env0
        { method := some "tools/call", params := ⟨some "send_message", noArgs⟩,
          id := some (JId.num 2) }).1
      = some { id := some (JId.num 2), body := .rpcError (-32601) "Unknown tool: send_message" } :=
  ⟨rfl, rfl, by decide, rfl⟩

/-- C3 (amended): the `tools/list` response carries descriptors for
exactly six tools named `list_tables`, `describe_table`, `read_query`,
`write_query`, `read_thread`, `send_slack_message`, and `tools/call`
dispatches on exactly this set: a name outside it gets the unknown-tool
error, a name inside it never does. -/
theorem C3_catalogue_names (env : Env) (i : Option JId) (args : ToolArgs) (n : String) :
    toolCatalogue.map ToolDesc.name
      = ["list_tables", "describe_table", "read_query", "write_query", "read_thread",
         "send_slack_message"]
  ∧ (∀ r : Request, r.method = some "tools/list" →
      (handle_request env r).1 = some { id := r.id, body := .toolsList toolCatalogue })
  ∧ (n ∉ toolCatalogue.map ToolDesc.name →
      (handle_request env { method := some "tools/call", params := ⟨some n, args⟩, id := i }).1
        = some { id := i, body := .rpcError (-32601) ("Unknown tool: " ++ n) })
  ∧ (n ∈ toolCatalogue.map ToolDesc.name →
      ∀ msg, (handle_request env
          { method := some "tools/call", params := ⟨some n, args⟩, id := i }).1
        ≠ some { id := i, body := .rpcError (-32601) msg }) := by
  refine ⟨rfl, ?_, ?_, ?_⟩
  · intro r hm
    unfold handle_request
    rw [hm]
    simp
  · intro hn
    unfold handle_request
    rw [dispatch_unknown env args n hn]
    simp
  · intro hn msg
    have hk := dispatch_known env args n hn
    unfold handle_request
    simp only [show (some "tools/call" = some "initialize") = False by simp,
      show (some "tools/call" = some "notifications/initialized") = False by simp,
      show (some "tools/call" = some "tools/list") = False by simp, ite_false, ite_true,
      show (some "tools/call" = some "tools/call") = True by simp]
    cases hd : dispatchTool env (some n) args with
    | unknown m => rw [hd] at hk; simp [ToolOutcome.isUnknown] at hk
    | ok c db2 => simp
    | exn m => simp

/-- C3, witness. -/
theorem C3_witness :
    (handle_request env0
        { method := some "tools/call", params := ⟨some "drop_all", noArgs⟩,
          id := some (JId.num 3) }).1
      = some { id := some (JId.num 3), body := .rpcError (-32601) "Unknown tool: drop_all" }
  ∧ ∀ msg, (handle_request env0
        { method := some "tools/call", params := ⟨some "list_tables", noArgs⟩,
          id := some (JId.num 3) }).1
      ≠ some { id := some (JId.num 3), body := .rpcError (-32601) msg } :=
  ⟨((C3_catalogue_names env0 (some (JId.num 3)) noArgs "drop_all").2.2.1 (by decide)).trans rfl,
   (C3_catalogue_names env0 (some (JId.num 3)) noArgs "list_tables").2.2.2 (by decide)⟩

/-! ### C7 -/

/-- C7: a `tools/call` request whose `params.name` is not in the tool
catalogue is answered with the tool-not-found error envelope
(code `-32601`, message naming the tool), and never with the generic
internal-error code `-32000`. -/
theorem C7_unknown_tool_code (env : Env) (i : Option JId) (args : ToolArgs) (n : String)
    (h : n ∉ toolCatalogue.map ToolDesc.name) :
    (handle_request env { method := some "tools/call", params := ⟨some n, args⟩, id := i }).1
      = some { id := i, body := .rpcError (-32601) ("Unknown tool: " ++ n) }
  ∧ ∀ msg, (handle_request env
        { method := some "tools/call", params := ⟨some n, args⟩, id := i }).1
      ≠ some { id := i, body := .rpcError (-32000) msg } := by
  have he : (handle_request env
      { method := some "tools/call", params := ⟨some n, args⟩, id := i }).1
      = some { id := i, body := .rpcError (-32601) ("Unknown tool: " ++ n) } := by
    unfold handle_request
    rw [dispatch_unknown env args n h]
    simp
  refine ⟨he, fun msg hc => ?_⟩
  rw [he] at hc
  simp at hc

/-- C7, witness. -/
theorem C7_witness :
    (handle_request env0
        { method := some "tools/call", params := ⟨some "sync_ledger", noArgs⟩,
          id := some (JId.num 9) }).1
      = some { id := some (JId.num 9), body := .rpcError (-32601) "Unknown tool: sync_ledger" }
  ∧ ∀ msg, (handle_request env0
        { method := some "tools/call", params := ⟨some "sync_ledger", noArgs⟩,
          id := some (JId.num 9) }).1
      ≠ some { id := some (JId.num 9), body := .rpcError (-32000) msg } :=
  ⟨((C7_unknown_tool_code env0 (some (JId.num 9)) noArgs "sync_ledger" (by decide)).1).trans rfl,
   (C7_unknown_tool_code env0 (some (JId.num 9)) noArgs "sync_ledger" (by decide)).2⟩

/-! ### C4 -/

/-- Rowcount reported by a successfully executed statement: at least `-1`,
and nonnegative for row-changing statements. -/
theorem execStmt_rowcount (q : Stmt) (s s2 : Store) (m : Int)
    (h : execStmt q s = .ok (s2, m)) :
    -1 ≤ m ∧ (isRowChange q = true → 0 ≤ m) := by
  cases q with
  | selectFrom t =>
      cases hl : lookupTable s t <;> simp [execStmt, hl] at h
      exact ⟨by omega, by simp [isRowChange]⟩
  | insertRow t row =>
      cases hl : lookupTable s t with
      | none => simp [execStmt, hl] at h
      | some tb =>
          simp only [execStmt, hl] at h
          split at h
          · exact absurd h (by simp)
          · split at h
            · exact absurd h (by simp)
            · simp only [Except.ok.injEq, Prod.mk.injEq] at h
              obtain ⟨-, hm⟩ := h
              constructor
              · omega
              · intro _; omega
  | deleteAll t =>
      cases hl : lookupTable s t with
      | none => simp [execStmt, hl] at h
      | some tb =>
          simp only [execStmt, hl, Except.ok.injEq, Prod.mk.injEq] at h
          obtain ⟨-, hm⟩ := h
          refine ⟨?_, fun _ => ?_⟩ <;> omega
  | createTable t cols =>
      simp only [execStmt] at h
      split at h
      · exact absurd h (by simp)
      · simp only [Except.ok.injEq, Prod.mk.injEq] at h
        exact ⟨by omega, by simp [isRowChange]⟩

/-- C4, counterexample: the claim says a successful `write_query` always
returns `affected_rows ≥ 0`; but sqlite3 reports `rowcount = -1` for
statements that change no rows determinably, so executing a DDL statement
(`CREATE TABLE`) through `write_query` succeeds with `affected_rows = -1`. -/
theorem C4_counterexample :
    (write_query true (Stmt.createTable "audit_log" [⟨"id", "INTEGER", true, true⟩]) []).result
      = .ok (-1)
  ∧ ¬((-1 : Int) ≥ 0) :=
  ⟨rfl, by decide⟩

/-- C4 (amended): a successful `write_query` returns
`{affected_rows: n}` with `n` an integer at least `-1`; `n ≥ 0` holds for
row-changing statements (INSERT/UPDATE/DELETE), while statements for
which sqlite3 reports no row count (DDL, SELECT) yield `n = -1`. -/
theorem C4_affected_rows (commitOk : Bool) (q : Stmt) (s : Store) (n : Int)
    (h : (write_query commitOk q s).result = .ok n) :
    -1 ≤ n ∧ (isRowChange q = true → 0 ≤ n) := by
  cases hx : execStmt q s with
  | error f =>
      have hw : write_query commitOk q s = { result := .error f, store := s } := by
        simp [write_query, hx]
      rw [hw] at h
      exact absurd h (by simp)
  | ok p =>
      rcases p with ⟨s2, m⟩
      by_cases hc : commitOk
      · have hw : write_query commitOk q s = { result := .ok m, store := s2 } := by
          simp [write_query, hx, hc]
        rw [hw] at h
        simp only [Except.ok.injEq] at h
        exact h ▸ execStmt_rowcount q s s2 m hx
      · have hw : write_query commitOk q s
            = { result := .error ⟨"disk I/O error"⟩, store := s } := by
          simp [write_query, hx, hc]
        rw [hw] at h
        exact absurd h (by simp)

/-- C4, witness. -/
theorem C4_witness :
    (-1 : Int) ≤ 1
  ∧ (isRowChange (Stmt.insertRow "cassettes" ["c1"]) = true → (0 : Int) ≤ 1) :=
  C4_affected_rows true (Stmt.insertRow "cassettes" ["c1"])
    [("cassettes", ⟨[⟨"id", "TEXT", true, true⟩], true, []⟩)] 1 rfl

/-! ### C5 -/

/-- C5: `get_connection` with the default ceiling performs at most 3
attempts; the sleeps between consecutive attempts are exactly
`delay × attempt_number` (delay×1 after the first failure, delay×2 after
the second) with none after the final attempt (one sleep per non-final
failed attempt); and when all three attempts fail the call fails carrying
the last underlying error. -/
theorem C5_retry_policy (probe : Nat → Except SqlError Unit) (d : ℚ) (e0 e1 e2 : SqlError) :
    (get_connection probe defaultRetries d).attempts ≤ 3
  ∧ (get_connection probe defaultRetries d).sleeps
      = (List.range ((get_connection probe defaultRetries d).attempts - 1)).map
          (fun k => d * ((k : ℚ) + 1))
  ∧ (probe 0 = .error e0 → probe 1 = .error e1 → probe 2 = .error e2 →
        (get_connection probe defaultRetries d).result = .error (some e2)
      ∧ (get_connection probe defaultRetries d).attempts = 3
      ∧ (get_connection probe defaultRetries d).sleeps = [d * 1, d * 2]) := by
  have main : ∀ r0 : Except SqlError Unit, probe 0 = r0 →
      (get_connection probe defaultRetries d).attempts ≤ 3
    ∧ (get_connection probe defaultRetries d).sleeps
        = (List.range ((get_connection probe defaultRetries d).attempts - 1)).map
            (fun k => d * ((k : ℚ) + 1)) := by
    intro r0 h0
    cases r0 with
    | ok u =>
        constructor <;>
          simp [get_connection, defaultRetries, getConnGo, h0, List.range_succ]
    | error f0 =>
        cases h1 : probe 1 with
        | ok u =>
            constructor <;>
              simp [get_connection, defaultRetries, getConnGo, h0, h1, List.range_succ]
        | error f1 =>
            cases h2 : probe 2 with
            | ok u =>
                constructor <;>
                  simp [get_connection, defaultRetries, getConnGo, h0, h1, h2,
                    List.range_succ]
            | error f2 =>
                constructor <;>
                  simp [get_connection, defaultRetries, getConnGo, h0, h1, h2,
                    List.range_succ]
  refine ⟨(main (probe 0) rfl).1, (main (probe 0) rfl).2, fun h0 h1 h2 => ?_⟩
  refine ⟨?_, ?_, ?_⟩ <;>
    · simp [get_connection, defaultRetries, getConnGo, h0, h1, h2]
      try norm_num

/-- C5, witness. -/
theorem C5_witness :
    (get_connection (fun _ => .error ⟨"database is locked"⟩) defaultRetries (1 / 2)).result
      = .error (some ⟨"database is locked"⟩)
  ∧ (get_connection (fun _ => .error ⟨"database is locked"⟩) defaultRetries (1 / 2)).attempts = 3
  ∧ (get_connection (fun _ => .error ⟨"database is locked"⟩) defaultRetries (1 / 2)).sleeps
      = [(1 / 2 : ℚ) * 1, (1 / 2 : ℚ) * 2] :=
  (C5_retry_policy (fun _ => .error ⟨"database is locked"⟩) (1 / 2)
    ⟨"database is locked"⟩ ⟨"database is locked"⟩ ⟨"database is locked"⟩).2.2 rfl rfl rfl

/-! ### C6 -/

/-- C6: when `write_query` fails (statement execution or commit), it
rolls back before propagating, so the persistent store — in particular
every table's row count — is unchanged by the failed call. -/
theorem C6_rollback_preserves (commitOk : Bool) (q : Stmt) (s : Store) (e : SqlError)
    (h : (write_query commitOk q s).result = .error e) :
    (write_query commitOk q s).store = s
  ∧ ∀ t, tableRowCount ((write_query commitOk q s).store) t = tableRowCount s t := by
  have hs : (write_query commitOk q s).store = s := by
    cases hx : execStmt q s with
    | error f =>
        have hw : write_query commitOk q s = { result := .error f, store := s } := by
          simp [write_query, hx]
        rw [hw]
    | ok p =>
        rcases p with ⟨s2, m⟩
        by_cases hc : commitOk
        · have hw : write_query commitOk q s = { result := .ok m, store := s2 } := by
            simp [write_query, hx, hc]
          rw [hw] at h
          exact absurd h (by simp)
        · have hw : write_query commitOk q s
              = { result := .error ⟨"disk I/O error"⟩, store := s } := by
            simp [write_query, hx, hc]
          rw [hw]
  exact ⟨hs, fun t => by rw [hs]⟩

/-- C6, witness: a UNIQUE-constraint violation on insert leaves the
store, and the violated table's row count, unchanged. -/
theorem C6_witness :
    (write_query true (Stmt.insertRow "deposits" ["d1"])
        [("deposits", ⟨[⟨"id", "TEXT", true, true⟩], true, [["d1"]]⟩)]).store
      = [("deposits", ⟨[⟨"id", "TEXT", true, true⟩], true, [["d1"]]⟩)]
  ∧ tableRowCount
      ((write_query true (Stmt.insertRow "deposits" ["d1"])
          [("deposits", ⟨[⟨"id", "TEXT", true, true⟩], true, [["d1"]]⟩)]).store)
      "deposits"
    = tableRowCount [("deposits", ⟨[⟨"id", "TEXT", true, true⟩], true, [["d1"]]⟩)] "deposits" :=
  ⟨(C6_rollback_preserves true (Stmt.insertRow "deposits" ["d1"])
      [("deposits", ⟨[⟨"id", "TEXT", true, true⟩], true, [["d1"]]⟩)]
      ⟨"UNIQUE constraint failed: deposits"⟩ rfl).1,
   (C6_rollback_preserves true (Stmt.insertRow "deposits" ["d1"])
      [("deposits", ⟨[⟨"id", "TEXT", true, true⟩], true, [["d1"]]⟩)]
      ⟨"UNIQUE constraint failed: deposits"⟩ rfl).2 "deposits"⟩

/-! ### C8 -/

/-- C8: with the `SLACK_BOT_TOKEN` credential unset, `read_thread` and
the send-message handler both return the structured value
`{success: false, error: "SLACK_BOT_TOKEN not configured"}` (they return
rather than raise), the `tools/call` response wraps that failure as a
normal result, and the transport loop stays alive and answers the next
request. -/
theorem C8_missing_credential (env : Env) (ch ts msg : String) (lim : Nat)
    (w : String → String → SlackNet) (net : SendNet) (i j : JId) :
    read_thread none ch ts lim w = .failure "SLACK_BOT_TOKEN not configured"
  ∧ send_slack_message none ch msg net = .failure "SLACK_BOT_TOKEN not configured"
  ∧ mainLoop { env with slackToken := none }
      [Line.valid
        { method := some "tools/call",
          params := ⟨some "read_thread", { noArgs with channel := some ch, thread_ts := some ts }⟩,
          id := some i },
       Line.valid { method := some "initialize", params := ⟨none, noArgs⟩, id := some j }]
      = [{ id := some i,
           body := .callResult "Failed to read thread: SLACK_BOT_TOKEN not configured" },
         { id := some j, body := .initResult }] :=
  ⟨rfl, rfl, rfl⟩

/-! ### C9 -/

/-- C9: a `tools/call` request naming a known tool but omitting one of
its required arguments is answered with the generic internal-error
envelope — code `-32000` carrying the `KeyError` message — under the
request's id (the raised `KeyError` is caught by the handler's catch-all,
so it is not a tool-not-found error and the loop does not crash). -/
theorem C9_missing_required_arg (env : Env) (i : JId) (args : ToolArgs) :
    (args.table_name = none →
      (handle_request env
          { method := some "tools/call", params := ⟨some "describe_table", args⟩,
            id := some i }).1
        = some { id := some i, body := .rpcError (-32000) (keyErrorMsg "table_name") })
  ∧ (args.query = none →
      (handle_request env
          { method := some "tools/call", params := ⟨some "read_query", args⟩,
            id := some i }).1
        = some { id := some i, body := .rpcError (-32000) (keyErrorMsg "query") })
  ∧ (args.query = none →
      (handle_request env
          { method := some "tools/call", params := ⟨some "write_query", args⟩,
            id := some i }).1
        = some { id := some i, body := .rpcError (-32000) (keyErrorMsg "query") })
  ∧ (args.channel = none →
      (handle_request env
          { method := some "tools/call", params := ⟨some "read_thread", args⟩,
            id := some i }).1
        = some { id := some i, body := .rpcError (-32000) (keyErrorMsg "channel") })
  ∧ (∀ ch, args.channel = some ch → args.thread_ts = none →
      (handle_request env
          { method := some "tools/call", params := ⟨some "read_thread", args⟩,
            id := some i }).1
        = some { id := some i, body := .rpcError (-32000) (keyErrorMsg "thread_ts") })
  ∧ (args.channel = none →
      (handle_request env
          { method := some "tools/call", params := ⟨some "send_slack_message", args⟩,
            id := some i }).1
        = some { id := some i, body := .rpcError (-32000) (keyErrorMsg "channel") })
  ∧ (∀ ch, args.channel = some ch → args.message = none →
      (handle_request env
          { method := some "tools/call", params := ⟨some "send_slack_message", args⟩,
            id := some i }).1
        = some { id := some i, body := .rpcError (-32000) (keyErrorMsg "message") }) := by
  refine ⟨fun h => ?_, fun h => ?_, fun h => ?_, fun h => ?_, fun ch hc h => ?_,
    fun h => ?_, fun ch hc h => ?_⟩ <;>
    simp [handle_request, dispatchTool, *]

/-- C9, witness. -/
theorem C9_witness :
    (handle_request env0
        { method := some "tools/call", params := ⟨some "describe_table", noArgs⟩,
          id := some (JId.num 4) }).1
      = some { id := some (JId.num 4), body := .rpcError (-32000) (keyErrorMsg "table_name") }
  ∧ (handle_request env0
        { method := some "tools/call",
          params := ⟨some "read_thread", { noArgs with channel := some "C07" }⟩,
          id := some (JId.num 4) }).1
      = some { id := some (JId.num 4), body := .rpcError (-32000) (keyErrorMsg "thread_ts") } :=
  ⟨(C9_missing_required_arg env0 (JId.num 4) noArgs).1 rfl,
   (C9_missing_required_arg env0 (JId.num 4)
      { noArgs with channel := some "C07" }).2.2.2.2.1 "C07" rfl rfl⟩

/-! ### C10 -/

/-- The message loop of `read_thread` is filter-then-classify: it keeps
exactly the non-status messages, in order, with the bot-flag role rule. -/
theorem collectMsgs_eq (l : List SlackMsg) :
    collectMsgs l
      = (l.filter (fun m => !(isStatusText m.text))).map
          (fun m => { role := if m.bot_id.isSome then "assistant" else "user",
                      text := m.text }) := by
  induction l with
  | nil => rfl
  | cons m rest ih =>
      by_cases hs : isStatusText m.text <;> simp [collectMsgs, List.filter_cons, hs, ih]

/-- C10: on a successful upstream fetch, `read_thread` returns exactly
the fetched messages whose text does not begin with a status marker, in
fetched order, each classified `assistant` iff the platform flags it as
bot-authored and `user` otherwise; and because `limit` bounds the
upstream fetch *before* this filtering, the returned list can have fewer
than `limit` messages even when the thread holds at least `limit`
non-status messages. -/
theorem C10_filter_after_fetch (tok ch ts : String) (lim : Nat) (e : Option String)
    (thread : List SlackMsg) :
    read_thread (some tok) ch ts lim (fun _ _ => .api true e thread)
      = .success (((thread.take lim).filter (fun m => !(isStatusText m.text))).map
          (fun m => { role := if m.bot_id.isSome then "assistant" else "user",
                      text := m.text }))
  ∧ ∃ thread2 : List SlackMsg, ∃ lim2 : Nat, ∃ msgs : List OutMsg,
      read_thread (some tok) ch ts lim2 (fun _ _ => .api true e thread2) = .success msgs
    ∧ lim2 ≤ (thread2.filter (fun m => !(isStatusText m.text))).length
    ∧ msgs.length < lim2 := by
  constructor
  · show ReadResult.success (collectMsgs (thread.take lim)) = _
    rw [collectMsgs_eq]
  · refine ⟨[⟨"🔍 Analyzing the deposits table", none⟩, ⟨"hello", none⟩,
      ⟨"on it", some "B01"⟩], 2, [{ role := "user", text := "hello" }], ?_, ?_, ?_⟩
    · show ReadResult.success (collectMsgs _) = _
      rfl
    · decide
    · decide

end RetailOps
